import Mathlib

/-!
Shallow embedding of the webhook-handler repository (Jotform/ClickFunnels
webhooks forwarding Meta CAPI events).

Sources embedded:
* `src/api/meta-capi.js` (two variants, separated in the file): `sha256`,
  `readBody`, `pickCookieLike`, `resolveEventId`, fbc reconstruction,
  `user_data` construction, env-var guard, fixed `event_source_url`.
* `src/api/meta-capi-app.js`: `sha256`, `normalizeDOB`, `pickCookieLike`,
  `resolveEventId`, `reconstructFBCIfNeeded`, `user_data` construction.
* `src/unnamed/part_003`: `normalizeDOB` (identical), env guard, fixed URL.
* `src/unnamed/part_004` (root-level meta-capi.js variant): unguarded
  forward, referer/formID-derived `event_source_url`.
* `src/unnamed/part_000`, `src/unnamed/part_001`: ClickFunnels log handlers.

Host functions that the JavaScript delegates to the runtime are modelled
explicitly and named as such:
* the SHA-256 digest (`crypto.createHash("sha256")`) is an abstract
  parameter `h : String → String` of every definition that hashes;
* `JSON.parse` is an abstract parameter `jp : String → Option JVal`
  (`none` models a thrown SyntaxError);
* `new Date(s)` fallback parsing is an abstract parameter
  `dateParse : String → Option (Int × Nat × Nat)` giving the UTC
  year/month/day (`none` models an invalid date);
* `String.prototype.trim` / `toLowerCase` (ASCII range), `URL` query
  extraction, `decodeURIComponent` and `querystring.parse` are modelled
  as total executable functions below.
-/

/-- JavaScript whitespace (the `\s` class / `String.prototype.trim` set):
TAB LF VT FF CR SPACE NBSP OGHAM-SP, U+2000..U+200A, LS, PS, NNBSP, MMSP,
IDEOGRAPHIC SPACE, BOM. -/
def isJsWS (c : Char) : Bool :=
  decide (c.toNat = 9 ∨ c.toNat = 10 ∨ c.toNat = 11 ∨ c.toNat = 12 ∨
    c.toNat = 13 ∨ c.toNat = 32 ∨ c.toNat = 160 ∨ c.toNat = 5760 ∨
    (8192 ≤ c.toNat ∧ c.toNat ≤ 8202) ∨ c.toNat = 8232 ∨ c.toNat = 8233 ∨
    c.toNat = 8239 ∨ c.toNat = 8287 ∨ c.toNat = 12288 ∨ c.toNat = 65279)

/-- ASCII lowercasing of one character, as `toLowerCase` acts on `A`..`Z`. -/
def lowerChar (c : Char) : Char :=
  if 65 ≤ c.toNat ∧ c.toNat ≤ 90 then Char.ofNat (c.toNat + 32) else c

/-- Strip leading and trailing JS whitespace from a character list. -/
def trimList (l : List Char) : List Char :=
  List.rdropWhile isJsWS (List.dropWhile isJsWS l)

/-- Model of `String.prototype.trim`. -/
def jsTrim (s : String) : String := String.mk (trimList s.data)

/-- Model of `String.prototype.toLowerCase` (ASCII range). -/
def jsLower (s : String) : String := String.mk (s.data.map lowerChar)

/-- The PII normalisation the handlers apply before hashing:
`String(v).trim().toLowerCase()`. -/
def normPII (s : String) : String := jsLower (jsTrim s)

/-- JS truthiness of an optional string: `undefined`/`null` and the empty
string are falsy. -/
def strTruthy : Option String → Bool
  | none => false
  | some s => s ≠ ""

/-- JS `a || b` on optional strings. -/
def jsOr (a b : Option String) : Option String := if strTruthy a then a else b

/-- JS `v || undefined`. -/
def truthyStr (o : Option String) : Option String := if strTruthy o then o else none

/-- Embedding of the `sha256` helper shared by all handler variants:
`if (!v) return undefined; return digest(String(v).trim().toLowerCase())`.
The digest itself (`crypto.createHash("sha256")…digest("hex")`) is the
abstract parameter `h`. -/
def sha256 (h : String → String) : Option String → Option String
  | none => none
  | some s => if s = "" then none else some (h (normPII s))

/-- Model of `String.prototype.padStart(2, "0")`. -/
def padStart2 (s : String) : String :=
  if s.length ≥ 2 then s else String.mk (List.replicate (2 - s.length) '0') ++ s

/-- Minimal JSON value universe for the parsed webhook bodies. -/
inductive JVal where
  | jnull : JVal
  | jstr : String → JVal
  | jnum : Int → JVal
  | jbool : Bool → JVal
  | jobj : List (String × JVal) → JVal
  | jarr : List JVal → JVal

/-- First-match association lookup (JS property access on our object model). -/
def jlookup : List (String × JVal) → String → Option JVal
  | [], _ => none
  | (k, v) :: rest, key => if k = key then some v else jlookup rest key

/-- Association lookup in a string-valued field map. -/
def slookup : List (String × String) → String → Option String
  | [], _ => none
  | (k, v) :: rest, key => if k = key then some v else slookup rest key

/-- `obj[k]` when the stored value is a string. -/
def objGetStr (o : List (String × JVal)) (key : String) : Option String :=
  match jlookup o key with
  | some (JVal.jstr s) => some s
  | _ => none

/-- `pat` is a prefix of the second list. -/
def listStartsWith : List Char → List Char → Bool
  | [], _ => true
  | _ :: _, [] => false
  | p :: ps, c :: cs => p == c && listStartsWith ps cs

/-- Model of `String.prototype.endsWith`. -/
def endsWithStr (s suffix : String) : Bool :=
  listStartsWith suffix.data.reverse s.data.reverse

/-- Substring containment (JS `String.prototype.includes`). -/
def listContainsSub (pat : List Char) : List Char → Bool
  | [] => listStartsWith pat []
  | c :: rest => listStartsWith pat (c :: rest) || listContainsSub pat rest

/-- `s` contains `pat` as a substring. -/
def containsSub (pat s : String) : Bool := listContainsSub pat.data s.data

/-- Leftmost index at which `pat` occurs (JS `String.prototype.indexOf`). -/
def idxOfSub (pat : List Char) : List Char → Option Nat
  | [] => if listStartsWith pat [] then some 0 else none
  | c :: rest =>
    if listStartsWith pat (c :: rest) then some 0
    else (idxOfSub pat rest).map (fun n => n + 1)

/-- Fuel-driven splitter (the fuel is the input length, so it never runs
out); models JS `String.prototype.split` with a nonempty separator. -/
def splitOnFuel (sep : List Char) : Nat → List Char → List Char → List (List Char)
  | _, [], acc => [acc.reverse]
  | 0, l, acc => [acc.reverse ++ l]
  | fuel + 1, c :: rest, acc =>
    if sep ≠ [] ∧ listStartsWith sep (c :: rest) = true then
      acc.reverse :: splitOnFuel sep fuel ((c :: rest).drop sep.length) []
    else splitOnFuel sep fuel rest (c :: acc)

/-- Model of `s.split(sep)` for a nonempty string separator. -/
def splitOnStr (s sep : String) : List String :=
  (splitOnFuel sep.data s.data.length s.data []).map String.mk

/-- `pickCookieLike(obj, key)` from `meta-capi.js` / `meta-capi-app.js`:
first key equal to `key` or ending in `"_" ++ key` whose value is a string
with nonempty trim; returns the trimmed value. -/
def pickCookieLike (o : List (String × JVal)) (key : String) : Option String :=
  match o with
  | [] => none
  | (k, v) :: rest =>
    if k = key ∨ endsWithStr k ("_" ++ key) = true then
      match v with
      | JVal.jstr s => if jsTrim s ≠ "" then some (jsTrim s) else pickCookieLike rest key
      | _ => pickCookieLike rest key
    else pickCookieLike rest key

/-- `pickCookieLike` applied to the flat multipart field map (all values
are strings there). -/
def pickCookieLikeS (o : List (String × String)) (key : String) : Option String :=
  match o with
  | [] => none
  | (k, v) :: rest =>
    if k = key ∨ endsWithStr k ("_" ++ key) = true then
      if jsTrim v ≠ "" then some (jsTrim v) else pickCookieLikeS rest key
    else pickCookieLikeS rest key

/-- `resolveEventId(body, rr)` from `meta-capi-app.js` (same code in
`part_003`): `hidden = pickCookieLike(rr,'event_id') ||
pickCookieLike(body.fields,'event_id') || body.event_id || body.eventId`;
`internal = rr?.event_id || undefined`; returns `hidden || internal`. -/
def resolveEventIdApp (rr : List (String × JVal)) (bodyFields : List (String × String))
    (bodyEventId bodyEventIdAlt : Option String) : Option String :=
  let hidden := jsOr (pickCookieLike rr "event_id")
    (jsOr (pickCookieLikeS bodyFields "event_id") (jsOr bodyEventId bodyEventIdAlt))
  let internal := truthyStr (objGetStr rr "event_id")
  jsOr hidden internal

/-- `^(\d{4})[-\/](\d{1,2})[-\/](\d{1,2})$` as a direct parser.  Maximal
digit runs are equivalent to the regex here: `\d{4}` admits no
backtracking, and a `\d{1,2}` group followed by a separator or the end can
only match when the maximal digit run has length 1 or 2. -/
def dateShapeYMD (l : List Char) : Option (String × String × String) :=
  let p1 := l.span Char.isDigit
  match p1.2 with
  | [] => none
  | s1 :: r2 =>
    if s1 = '-' ∨ s1 = '/' then
      let p2 := r2.span Char.isDigit
      match p2.2 with
      | [] => none
      | s2 :: r4 =>
        if s2 = '-' ∨ s2 = '/' then
          let p3 := r4.span Char.isDigit
          if p3.2 = [] ∧ p1.1.length = 4 ∧ 1 ≤ p2.1.length ∧ p2.1.length ≤ 2 ∧
              1 ≤ p3.1.length ∧ p3.1.length ≤ 2 then
            some (String.mk p1.1, String.mk p2.1, String.mk p3.1)
          else none
        else none
    else none

/-- `^(\d{1,2})[\/\-](\d{1,2})[\/\-](\d{4})$` as a direct parser
(month, day, year). -/
def dateShapeMDY (l : List Char) : Option (String × String × String) :=
  let p1 := l.span Char.isDigit
  match p1.2 with
  | [] => none
  | s1 :: r2 =>
    if s1 = '-' ∨ s1 = '/' then
      let p2 := r2.span Char.isDigit
      match p2.2 with
      | [] => none
      | s2 :: r4 =>
        if s2 = '-' ∨ s2 = '/' then
          let p3 := r4.span Char.isDigit
          if p3.2 = [] ∧ 1 ≤ p1.1.length ∧ p1.1.length ≤ 2 ∧ 1 ≤ p2.1.length ∧
              p2.1.length ≤ 2 ∧ p3.1.length = 4 then
            some (String.mk p1.1, String.mk p2.1, String.mk p3.1)
          else none
        else none
    else none

/-- `normalizeDOB` from `meta-capi-app.js` lines 16-40 (identical in
`part_003` lines 15-30).  `dateParse` models the `new Date(s)` fallback,
returning the UTC year/month(1-12)/day on success. -/
def normalizeDOB (dateParse : String → Option (Int × Nat × Nat)) (v : Option String) :
    Option String :=
  match v with
  | none => none
  | some v0 =>
    if v0 = "" then none
    else
      let s := jsTrim v0
      match dateShapeYMD s.data with
      | some (y, mo, d) => some (y ++ padStart2 mo ++ padStart2 d)
      | none =>
        match dateShapeMDY s.data with
        | some (mo, d, y) => some (y ++ padStart2 mo ++ padStart2 d)
        | none =>
          match dateParse s with
          | some (y, mo, da) =>
            some (toString y ++ padStart2 (toString mo) ++ padStart2 (toString da))
          | none => none

/-- Value of a hex digit character. -/
def hexDigitVal (c : Char) : Option Nat :=
  if 48 ≤ c.toNat ∧ c.toNat ≤ 57 then some (c.toNat - 48)
  else if 97 ≤ c.toNat ∧ c.toNat ≤ 102 then some (c.toNat - 87)
  else if 65 ≤ c.toNat ∧ c.toNat ≤ 70 then some (c.toNat - 55)
  else none

/-- Percent-decoding of `%XX` escapes.  Models `decodeURIComponent` on the
byte level (multi-byte UTF-8 sequences decode to one char per byte here,
and malformed escapes are left in place instead of throwing; no claim
depends on those corners). -/
def percentDecodeL : List Char → List Char
  | [] => []
  | '%' :: a :: b :: rest =>
    match hexDigitVal a, hexDigitVal b with
    | some x, some y => Char.ofNat (16 * x + y) :: percentDecodeL rest
    | _, _ => '%' :: percentDecodeL (a :: b :: rest)
  | c :: rest => c :: percentDecodeL rest

/-- String-level percent-decoding (`decodeURIComponent` model). -/
def percentDecode (s : String) : String := String.mk (percentDecodeL s.data)

/-- `+` means space in query strings. -/
def plusToSpace (s : String) : String :=
  String.mk (s.data.map (fun c => if c = '+' then ' ' else c))

/-- Decoding applied by `URLSearchParams` / `querystring.parse` to names
and values. -/
def formDecode (s : String) : String := percentDecode (plusToSpace s)

/-- The query component of a URL string: everything after the first `?`,
with any fragment cut off first.  Models `new URL(s, base).search` for the
handlers' use (the base `https://dummy.base` contributes no query). -/
def queryOf (url : String) : String :=
  let noFrag := url.data.takeWhile (fun c => c ≠ '#')
  let rest := noFrag.dropWhile (fun c => c ≠ '?')
  match rest with
  | [] => ""
  | _ :: t => String.mk t

/-- Model of `new URL(url, base).searchParams.get(name)`: first matching
parameter, decoded. -/
def getSearchParam (url name : String) : Option String :=
  (splitOnStr (queryOf url) "&").findSome? (fun seg =>
    if seg = "" then none
    else
      let kd := seg.data.takeWhile (fun c => c ≠ '=')
      let rest := seg.data.drop kd.length
      let vd := match rest with
        | '=' :: t => t
        | _ => []
      if formDecode (String.mk kd) = name then some (formDecode (String.mk vd)) else none)

/-- The fbclid extraction inside the fbc reconstruction (`meta-capi.js`
lines 171-176, `meta-capi-app.js` lines 131-136): parse the parent URL,
unwrap a nested `parentURL` query parameter when present, then read
`fbclid` from the effective parent-page URL. -/
def fbclidOf (parentURL : String) : Option String :=
  let innerCandidate := getSearchParam parentURL "parentURL"
  let candidate := match innerCandidate with
    | some i => if i ≠ "" then percentDecode i else parentURL
    | none => parentURL
  getSearchParam candidate "fbclid"

/-- `body.parentURL || rr.parentURL || rr.referer || req.headers.referer || ""`. -/
def parentURLChain (bodyParentURL rrParentURL rrReferer reqReferer : Option String) : String :=
  (jsOr (jsOr (jsOr bodyParentURL rrParentURL) rrReferer) reqReferer).getD ""

/-- `reconstructFBCIfNeeded` from `meta-capi-app.js` lines 128-143; the
same logic appears inline in `meta-capi.js` lines 169-182.  `ts` is the
current time in whole seconds (`Math.floor(Date.now() / 1000)`). -/
def reconstructFBCIfNeeded (ts : Nat) (currentFbc : Option String)
    (bodyParentURL rrParentURL rrReferer reqReferer : Option String) : Option String :=
  if strTruthy currentFbc then currentFbc
  else
    let parentURL := parentURLChain bodyParentURL rrParentURL rrReferer reqReferer
    match fbclidOf parentURL with
    | some clid => if clid ≠ "" then some ("fb.1." ++ toString ts ++ "." ++ clid) else none
    | none => none

/-- `[business_phone, personal_phone].filter(Boolean)` from `meta-capi.js`
lines 190-192. -/
def phonesOf (business personal : Option String) : List String :=
  (match business with
   | some s => if s ≠ "" then [s] else []
   | none => []) ++
  (match personal with
   | some s => if s ≠ "" then [s] else []
   | none => [])

/-- `String(req.headers["x-forwarded-for"] || "").split(",")[0] || undefined`. -/
def clientIpOf (xff : Option String) : Option String :=
  let first := (splitOnStr (xff.getD "") ",").headD ""
  if first = "" then none else some first

/-- The `Object.keys(user_data).forEach(k => user_data[k] === undefined &&
delete user_data[k])` pattern: keep only the entries whose value is not
`undefined`. -/
def compactObj (entries : List (String × Option JVal)) : List (String × JVal) :=
  entries.filterMap (fun kv =>
    match kv.2 with
    | some v => some (kv.1, v)
    | none => none)

/-- The `user_data` object built by `meta-capi.js` lines 217-227.  Array
elements that would be `undefined` in JS appear as `jnull`, matching what
`JSON.stringify` serialises them to inside an array. -/
def userDataCapi (h : String → String) (email firstName lastName : Option String)
    (phones : List String) (fbp fbc xff ua : Option String) : List (String × JVal) :=
  compactObj [
    ("em", if strTruthy email then
       (sha256 h email).map (fun d => JVal.jarr [JVal.jstr d]) else none),
    ("ph", if phones = [] then none else
       some (JVal.jarr (phones.map (fun p =>
         match sha256 h (some p) with
         | some d => JVal.jstr d
         | none => JVal.jnull)))),
    ("fn", (sha256 h firstName).map JVal.jstr),
    ("ln", (sha256 h lastName).map JVal.jstr),
    ("fbp", fbp.map JVal.jstr),
    ("fbc", fbc.map JVal.jstr),
    ("client_ip_address", (clientIpOf xff).map JVal.jstr),
    ("client_user_agent", ua.map JVal.jstr)]

/-- The `user_data` object built by `meta-capi-app.js` lines 234-245.
`db` is the already-normalised date of birth (`normalizeDOB`'s result). -/
def userDataApp (h : String → String) (email phone firstName lastName db fbp fbc xff ua :
    Option String) : List (String × JVal) :=
  compactObj [
    ("em", if strTruthy email then
       (sha256 h email).map (fun d => JVal.jarr [JVal.jstr d]) else none),
    ("ph", if strTruthy phone then
       (sha256 h phone).map (fun d => JVal.jarr [JVal.jstr d]) else none),
    ("fn", if strTruthy firstName then (sha256 h firstName).map JVal.jstr else none),
    ("ln", if strTruthy lastName then (sha256 h lastName).map JVal.jstr else none),
    ("db", if strTruthy db then (sha256 h db).map JVal.jstr else none),
    ("fbp", (truthyStr fbp).map JVal.jstr),
    ("fbc", (truthyStr fbc).map JVal.jstr),
    ("client_ip_address", (clientIpOf xff).map JVal.jstr),
    ("client_user_agent", ua.map JVal.jstr)]

/-- What a handler does after building the payload: fail on missing
configuration, or issue the single outbound POST. -/
inductive ForwardOutcome where
  | configError : Nat → String → ForwardOutcome
  | send : String → ForwardOutcome
deriving DecidableEq

/-- JS template interpolation of a possibly-undefined string. -/
def jsTemplate (o : Option String) : String := o.getD "undefined"

/-- The Graph API URL both guarded handlers and `part_004` interpolate. -/
def graphUrl (pixelId accessToken : Option String) : String :=
  "https://graph.facebook.com/v21.0/" ++ jsTemplate pixelId ++
    "/events?access_token=" ++ jsTemplate accessToken

/-- `meta-capi.js` lines 241-255 (both variants) and `meta-capi-app.js`
lines 273-296: guard on `!pixelId || !accessToken` before the fetch. -/
def forwardCapi (pixelId accessToken : Option String) : ForwardOutcome :=
  if strTruthy pixelId = false ∨ strTruthy accessToken = false then
    ForwardOutcome.configError 500 "Missing META_PIXEL_ID or META_ACCESS_TOKEN env vars"
  else ForwardOutcome.send (graphUrl pixelId accessToken)

/-- `part_003` lines 331-369: same guard, slightly different message. -/
def forwardPart003 (pixelId accessToken : Option String) : ForwardOutcome :=
  if strTruthy pixelId = false ∨ strTruthy accessToken = false then
    ForwardOutcome.configError 500 "Missing META_PIXEL_ID or META_ACCESS_TOKEN"
  else ForwardOutcome.send (graphUrl pixelId accessToken)

/-- `part_004` lines 65-74: no configuration guard at all — the fetch is
issued with whatever the env vars hold (`undefined` interpolates into the
URL). -/
def forwardPart004 (pixelId accessToken : Option String) : ForwardOutcome :=
  ForwardOutcome.send (graphUrl pixelId accessToken)

/-- `meta-capi.js` line 198: fixed neutral source URL. -/
def eventSourceUrlCapi : String := "https://lyftgrowth.com/go/tsgf/survey/"

/-- `part_003` line 325: fixed neutral source URL. -/
def eventSourceUrlPart003 : String := "https://go.lyftcapital.com/application"

/-- `meta-capi-app.js` lines 226-229:
`rr.event_source_url || fields.event_source_url || fixed`. -/
def eventSourceUrlApp (rrUrl fieldsUrl : Option String) : String :=
  (jsOr (jsOr rrUrl fieldsUrl) (some "https://lyftgrowth.com/go/app/")).getD ""

/-- `part_004` lines 41-44: `req.headers.referer ||
(formId ? jotform-URL : fixed)`. -/
def eventSourceUrlPart004 (referer formId : Option String) : String :=
  if strTruthy referer then referer.getD ""
  else if strTruthy formId then "https://www.jotform.com/" ++ formId.getD ""
  else "https://lyftgrowth.com/lead-form"

/-- Case-insensitive prefix test; the pattern is given lowercased. -/
def startsWithCI : List Char → List Char → Bool
  | [], _ => true
  | _ :: _, [] => false
  | p :: ps, c :: cs => p == lowerChar c && startsWithCI ps cs

/-- First capture of `/name="([^"]+)"/i` over the part headers
(`meta-capi.js` line 81): find `name="`, then at least one non-quote
character up to a closing quote; on a failed capture the scan resumes at
the next position, as the regex engine does. -/
def findNameAttr : List Char → Option String
  | [] => none
  | c :: rest =>
    let here := c :: rest
    if startsWithCI ['n', 'a', 'm', 'e', '=', '"'] here then
      let afterPat := here.drop 6
      let cap := afterPat.takeWhile (fun x => x ≠ '"')
      if cap ≠ [] ∧ afterPat.drop cap.length ≠ [] then some (String.mk cap)
      else findNameAttr rest
    else findNameAttr rest

/-- First capture of `/boundary=([^;]+)/i` over the (already lowercased)
content type (`meta-capi.js` line 66). -/
def findBoundary : List Char → Option String
  | [] => none
  | c :: rest =>
    if startsWithCI ['b', 'o', 'u', 'n', 'd', 'a', 'r', 'y', '='] (c :: rest) then
      let cap := ((c :: rest).drop 9).takeWhile (fun x => x ≠ ';')
      if cap = [] then findBoundary rest else some (String.mk cap)
    else findBoundary rest

/-- `value.replace(/\r\n--\s*$/, '')`: cut at the leftmost `\r\n--` that
is followed only by whitespace. -/
def stripTrailBoundaryDashes : List Char → List Char
  | [] => []
  | c :: rest =>
    if listStartsWith ['\r', '\n', '-', '-'] (c :: rest) &&
        ((c :: rest).drop 4).all isJsWS then []
    else c :: stripTrailBoundaryDashes rest

/-- `value.replace(/\r\n$/, '')`. -/
def stripTrailCrlf (l : List Char) : List Char :=
  match l.reverse with
  | '\n' :: '\r' :: r => r.reverse
  | _ => l

/-- `fields[name] = value` with JS object semantics: overwrite in place or
append. -/
def setField : List (String × String) → String → String → List (String × String)
  | [], k, v => [(k, v)]
  | (k0, v0) :: rest, k, v =>
    if k0 = k then (k0, v) :: rest else (k0, v0) :: setField rest k v

/-- One iteration of the multipart part loop (`meta-capi.js` lines 72-85). -/
def parsePart (fields : List (String × String)) (part : String) : List (String × String) :=
  if part = "" ∨ part = "--\r\n" ∨ part = "--" then fields
  else
    match idxOfSub ['\r', '\n', '\r', '\n'] part.data with
    | none => fields
    | some i =>
      let headers := part.data.take i
      let value := stripTrailCrlf (stripTrailBoundaryDashes (part.data.drop (i + 4)))
      match findNameAttr headers with
      | none => fields
      | some nm => setField fields nm (String.mk value)

/-- The whole multipart field map. -/
def parseFields (parts : List String) : List (String × String) :=
  parts.foldl parsePart []

/-- `let rr = {}; try { if (fields.rawRequest) rr = JSON.parse(fields.rawRequest) }
catch {}` — decode failure and absence both degrade to the empty object. -/
def rawRequestOf (jp : String → Option JVal) (fields : List (String × String)) : JVal :=
  match slookup fields "rawRequest" with
  | some s => if s ≠ "" then (jp s).getD (JVal.jobj []) else JVal.jobj []
  | none => JVal.jobj []

/-- `rr?.slug?.split("/")?.pop()` (`meta-capi.js` line 92, outside any
try/catch).  The optional chain short-circuits to `undefined` when `rr` or
`rr.slug` is nullish or `rr` has no such property, but when `slug` holds a
non-nullish non-string value the property access yields `undefined` and
the call throws a TypeError — modelled as `Except.error`. -/
def slugFormId (rr : JVal) : Except String (Option String) :=
  match rr with
  | JVal.jobj o =>
    match jlookup o "slug" with
    | some (JVal.jstr s) => Except.ok ((splitOnStr s "/").getLast?)
    | some JVal.jnull => Except.ok none
    | some _ => Except.error "TypeError: rr.slug.split is not a function"
    | none => Except.ok none
  | _ => Except.ok none

/-- The structure `readBody` returns for a multipart body
(`meta-capi.js` lines 94-103). -/
structure ParsedMultipart where
  rawRequest : JVal
  formID : Option String
  fbp : Option String
  fbc : Option String
  parentURL : Option String
  fields : List (String × String)

/-- The possible shapes `readBody` returns. -/
inductive BodyResult where
  | jsonBody : JVal → BodyResult
  | qsBody : List (String × String) → BodyResult
  | multipartNoBoundary : String → BodyResult
  | multipartBody : ParsedMultipart → BodyResult

/-- Model of Node's `querystring.parse` as used here (string values only;
the library's duplicate-key array merging is not modelled — no claim
depends on it).  It never throws. -/
def parseQS (raw : String) : List (String × String) :=
  (splitOnStr raw "&").filterMap (fun seg =>
    if seg = "" then none
    else
      let kd := seg.data.takeWhile (fun c => c ≠ '=')
      let rest := seg.data.drop kd.length
      let vd := match rest with
        | '=' :: t => t
        | _ => []
      some (formDecode (String.mk kd), formDecode (String.mk vd)))

/-- `readBody` from `meta-capi.js` lines 47-116.  Two paths throw
(`Except.error`): the declared-JSON branch runs `JSON.parse(raw)`
unprotected, and the multipart branch derives `formID` via
`rr?.slug?.split("/")?.pop()` outside the try/catch, which throws when the
decoded rawRequest carries a non-nullish non-string `slug`.  Every other
path is total. -/
def readBodyCapi (jp : String → Option JVal) (ctRaw raw : String) : Except String BodyResult :=
  let ct := jsLower ctRaw
  if containsSub "application/json" ct then
    if raw = "" then Except.ok (BodyResult.jsonBody (JVal.jobj []))
    else
      match jp raw with
      | some v => Except.ok (BodyResult.jsonBody v)
      | none => Except.error "SyntaxError: JSON.parse"
  else if containsSub "application/x-www-form-urlencoded" ct then
    Except.ok (BodyResult.qsBody (parseQS raw))
  else if containsSub "multipart/form-data" ct then
    match findBoundary ct.data with
    | none => Except.ok (BodyResult.multipartNoBoundary raw)
    | some boundary =>
      let fields := parseFields (splitOnStr raw ("--" ++ boundary))
      let rr := rawRequestOf jp fields
      match slugFormId rr with
      | Except.error e => Except.error e
      | Except.ok slugPart =>
        Except.ok (BodyResult.multipartBody
          { rawRequest := rr
            formID := jsOr slugPart (slookup fields "formID")
            fbp := slookup fields "fbp"
            fbc := slookup fields "fbc"
            parentURL := slookup fields "parentURL"
            fields := fields })
  else
    match jp raw with
    | some v => Except.ok (BodyResult.jsonBody v)
    | none => Except.ok (BodyResult.qsBody (parseQS raw))

/-- Response body shapes of the ClickFunnels log handlers. -/
inductive CfBody where
  | textOk : CfBody
  | jsonOk : CfBody
deriving DecidableEq

/-- A minimal HTTP response: status code plus body shape. -/
structure CfResponse where
  status : Nat
  body : CfBody
deriving DecidableEq

/-- `part_000` lines 2-14: non-POST methods get `200 "ok"`; POST logs the
body and answers `200 {ok:true}` (body shape `jsonOk`). -/
def cfLogPart000 (method : String) : CfResponse :=
  if method ≠ "POST" then { status := 200, body := CfBody.textOk }
  else { status := 200, body := CfBody.jsonOk }

/-- `part_001` lines 2-26: same statuses; for POST the raw body is read
and JSON-parsed only for logging (parse failure keeps the raw text), never
affecting the 200 response. -/
def cfLogPart001 (jp : String → Option JVal) (method : String) (raw : String) : CfResponse :=
  if method ≠ "POST" then { status := 200, body := CfBody.textOk }
  else
    let _payload := (jp raw).getD (JVal.jstr raw)
    { status := 200, body := CfBody.jsonOk }

theorem charOfNat_toNat {n : Nat} (h : n.isValidChar) : (Char.ofNat n).toNat = n := by
  unfold Char.ofNat
  rw [dif_pos h]
  rfl

theorem lowerChar_toNat_of_upper {c : Char} (h1 : 65 ≤ c.toNat) (h2 : c.toNat ≤ 90) :
    (lowerChar c).toNat = c.toNat + 32 := by
  unfold lowerChar
  rw [if_pos ⟨h1, h2⟩]
  exact charOfNat_toNat (Or.inl (by omega))

theorem lowerChar_eq_self {c : Char} (h : ¬(65 ≤ c.toNat ∧ c.toNat ≤ 90)) :
    lowerChar c = c := by
  unfold lowerChar
  rw [if_neg h]

theorem lowerChar_idem (c : Char) : lowerChar (lowerChar c) = lowerChar c := by
  by_cases h : 65 ≤ c.toNat ∧ c.toNat ≤ 90
  · have ht : (lowerChar c).toNat = c.toNat + 32 := lowerChar_toNat_of_upper h.1 h.2
    exact lowerChar_eq_self (by omega)
  · rw [lowerChar_eq_self h]
    exact lowerChar_eq_self h

theorem isJsWS_lowerChar (c : Char) : isJsWS (lowerChar c) = isJsWS c := by
  by_cases h : 65 ≤ c.toNat ∧ c.toNat ≤ 90
  · have ht : (lowerChar c).toNat = c.toNat + 32 := lowerChar_toNat_of_upper h.1 h.2
    unfold isJsWS
    rw [decide_eq_decide, ht]
    omega
  · rw [lowerChar_eq_self h]

theorem dropWhile_lower (l : List Char) :
    List.dropWhile isJsWS (l.map lowerChar) = (List.dropWhile isJsWS l).map lowerChar := by
  induction l with
  | nil => rfl
  | cons a t ih =>
    simp only [List.map_cons, List.dropWhile_cons, isJsWS_lowerChar]
    cases hws : isJsWS a with
    | true => simpa [hws] using ih
    | false => simp [hws]

theorem rdropWhile_lower (l : List Char) :
    List.rdropWhile isJsWS (l.map lowerChar) = (List.rdropWhile isJsWS l).map lowerChar := by
  unfold List.rdropWhile
  rw [← List.map_reverse, dropWhile_lower, List.map_reverse]

theorem trimList_lower (l : List Char) :
    trimList (l.map lowerChar) = (trimList l).map lowerChar := by
  unfold trimList
  rw [dropWhile_lower, rdropWhile_lower]

theorem dropLead_preserved {x m : List Char} (hm : List.dropWhile isJsWS m = m)
    (hx : x <+: m) : List.dropWhile isJsWS x = x := by
  cases x with
  | nil => rfl
  | cons a t =>
    obtain ⟨r, hr⟩ := hx
    subst hr
    rw [List.cons_append, List.dropWhile_cons] at hm
    rw [List.dropWhile_cons]
    by_cases ha : isJsWS a = true
    · exfalso
      rw [if_pos ha] at hm
      have hs := List.dropWhile_suffix (l := t ++ r) isJsWS
      rw [hm] at hs
      have := hs.length_le
      simp at this
    · rw [if_neg ha]

theorem trimList_idem (l : List Char) : trimList (trimList l) = trimList l := by
  unfold trimList
  have h2 : List.dropWhile isJsWS (List.rdropWhile isJsWS (List.dropWhile isJsWS l)) =
      List.rdropWhile isJsWS (List.dropWhile isJsWS l) :=
    dropLead_preserved (List.dropWhile_idempotent _ _) ( List.rdropWhile_prefix _ _)
  rw [h2, List.rdropWhile_idempotent]

theorem lowerMap_idem (l : List Char) :
    (l.map lowerChar).map lowerChar = l.map lowerChar := by
  rw [List.map_map]
  exact List.map_congr_left (fun c _ => lowerChar_idem c)

theorem normPII_idem (s : String) : normPII (normPII s) = normPII s := by
  show String.mk (trimList ((trimList s.data).map lowerChar) |>.map lowerChar) =
    String.mk ((trimList s.data).map lowerChar)
  rw [trimList_lower, trimList_idem, lowerMap_idem]

theorem str_ne_empty_iff (s : String) : s ≠ "" ↔ s.data ≠ [] := by
  cases s with
  | mk d =>
    constructor
    · intro h hd
      apply h
      have hd' : d = [] := hd
      subst hd'
      rfl
    · intro h he
      exact h (congrArg String.data he)

theorem normPII_ne_empty {s : String} (h : jsTrim s ≠ "") : normPII s ≠ "" := by
  rw [str_ne_empty_iff] at h ⊢
  intro hm
  apply h
  have hm' : (trimList s.data).map lowerChar = [] := hm
  exact List.map_eq_nil_iff.mp hm'

theorem sha256_falsy (h : String → String) {v : Option String}
    (hv : strTruthy v = false) : sha256 h v = none := by
  cases v with
  | none => rfl
  | some s =>
    have hs : s = "" := by
      by_contra hne
      simp [strTruthy, hne] at hv
    rw [hs]
    rfl

theorem sha256_truthy (h : String → String) {s : String} (hs : s ≠ "") :
    sha256 h (some s) = some (h (normPII s)) := by
  simp [sha256, hs]

theorem strTruthy_some {s : String} (hs : s ≠ "") : strTruthy (some s) = true :=
  decide_eq_true hs

theorem compactObj_cons_some (k : String) (v : JVal) (rest : List (String × Option JVal)) :
    compactObj ((k, some v) :: rest) = (k, v) :: compactObj rest := rfl

theorem compactObj_cons_none (k : String) (rest : List (String × Option JVal)) :
    compactObj ((k, none) :: rest) = compactObj rest := rfl

theorem jlookup_skip {k k0 : String} (v0 : Option JVal) (rest : List (String × Option JVal))
    (h : ¬k0 = k) :
    jlookup (compactObj ((k0, v0) :: rest)) k = jlookup (compactObj rest) k := by
  cases v0 with
  | none => rw [compactObj_cons_none]
  | some v =>
    rw [compactObj_cons_some]
    simp [jlookup, h]

theorem jlookup_hit (k : String) (v : JVal) (rest : List (String × Option JVal)) :
    jlookup (compactObj ((k, some v) :: rest)) k = some v := by
  rw [compactObj_cons_some]
  simp [jlookup]

theorem capi_em_some (h : String → String) {e : String} (he : e ≠ "")
    (fn ln : Option String) (phones : List String) (fbp fbc xff ua : Option String) :
    jlookup (userDataCapi h (some e) fn ln phones fbp fbc xff ua) "em" =
      some (JVal.jarr [JVal.jstr (h (normPII e))]) := by
  unfold userDataCapi
  rw [if_pos (strTruthy_some he), sha256_truthy h he, Option.map_some']
  exact jlookup_hit _ _ _

theorem capi_em_none (h : String → String) {email : Option String}
    (he : strTruthy email = false) (fn ln : Option String) (phones : List String)
    (fbp fbc xff ua : Option String) :
    jlookup (userDataCapi h email fn ln phones fbp fbc xff ua) "em" = none := by
  unfold userDataCapi
  rw [if_neg (by rw [he]; exact Bool.false_ne_true), compactObj_cons_none]
  rw [jlookup_skip _ _ (by decide), jlookup_skip _ _ (by decide),
    jlookup_skip _ _ (by decide), jlookup_skip _ _ (by decide),
    jlookup_skip _ _ (by decide), jlookup_skip _ _ (by decide),
    jlookup_skip _ _ (by decide)]
  rfl

theorem capi_ph_some (h : String → String) {phones : List String} (hne : phones ≠ [])
    (hall : ∀ p ∈ phones, p ≠ "") (email fn ln : Option String)
    (fbp fbc xff ua : Option String) :
    jlookup (userDataCapi h email fn ln phones fbp fbc xff ua) "ph" =
      some (JVal.jarr (phones.map (fun p => JVal.jstr (h (normPII p))))) := by
  unfold userDataCapi
  rw [jlookup_skip _ _ (by decide), if_neg hne]
  have hmap : phones.map (fun p =>
      match sha256 h (some p) with
      | some d => JVal.jstr d
      | none => JVal.jnull) = phones.map (fun p => JVal.jstr (h (normPII p))) :=
    List.map_congr_left (fun p hp => by rw [sha256_truthy h (hall p hp)])
  rw [hmap]
  exact jlookup_hit _ _ _

theorem capi_ph_none (h : String → String) (email fn ln : Option String)
    (fbp fbc xff ua : Option String) :
    jlookup (userDataCapi h email fn ln [] fbp fbc xff ua) "ph" = none := by
  unfold userDataCapi
  rw [jlookup_skip _ _ (by decide), if_pos rfl, compactObj_cons_none]
  rw [jlookup_skip _ _ (by decide), jlookup_skip _ _ (by decide),
    jlookup_skip _ _ (by decide), jlookup_skip _ _ (by decide),
    jlookup_skip _ _ (by decide), jlookup_skip _ _ (by decide)]
  rfl

theorem capi_fn_some (h : String → String) {f : String} (hf : f ≠ "")
    (email ln : Option String) (phones : List String) (fbp fbc xff ua : Option String) :
    jlookup (userDataCapi h email (some f) ln phones fbp fbc xff ua) "fn" =
      some (JVal.jstr (h (normPII f))) := by
  unfold userDataCapi
  rw [jlookup_skip _ _ (by decide), jlookup_skip _ _ (by decide)]
  rw [sha256_truthy h hf, Option.map_some']
  exact jlookup_hit _ _ _

theorem capi_fn_none (h : String → String) {fn : Option String}
    (hf : strTruthy fn = false) (email ln : Option String) (phones : List String)
    (fbp fbc xff ua : Option String) :
    jlookup (userDataCapi h email fn ln phones fbp fbc xff ua) "fn" = none := by
  unfold userDataCapi
  rw [jlookup_skip _ _ (by decide), jlookup_skip _ _ (by decide)]
  rw [sha256_falsy h hf, Option.map_none', compactObj_cons_none]
  rw [jlookup_skip _ _ (by decide), jlookup_skip _ _ (by decide),
    jlookup_skip _ _ (by decide), jlookup_skip _ _ (by decide),
    jlookup_skip _ _ (by decide)]
  rfl

theorem capi_ln_some (h : String → String) {l : String} (hl : l ≠ "")
    (email fn : Option String) (phones : List String) (fbp fbc xff ua : Option String) :
    jlookup (userDataCapi h email fn (some l) phones fbp fbc xff ua) "ln" =
      some (JVal.jstr (h (normPII l))) := by
  unfold userDataCapi
  rw [jlookup_skip _ _ (by decide), jlookup_skip _ _ (by decide),
    jlookup_skip _ _ (by decide)]
  rw [sha256_truthy h hl, Option.map_some']
  exact jlookup_hit _ _ _

theorem capi_ln_none (h : String → String) {ln : Option String}
    (hl : strTruthy ln = false) (email fn : Option String) (phones : List String)
    (fbp fbc xff ua : Option String) :
    jlookup (userDataCapi h email fn ln phones fbp fbc xff ua) "ln" = none := by
  unfold userDataCapi
  rw [jlookup_skip _ _ (by decide), jlookup_skip _ _ (by decide),
    jlookup_skip _ _ (by decide)]
  rw [sha256_falsy h hl, Option.map_none', compactObj_cons_none]
  rw [jlookup_skip _ _ (by decide), jlookup_skip _ _ (by decide),
    jlookup_skip _ _ (by decide), jlookup_skip _ _ (by decide)]
  rfl

theorem app_em_some (h : String → String) {e : String} (he : e ≠ "")
    (ph fn ln db fbp fbc xff ua : Option String) :
    jlookup (userDataApp h (some e) ph fn ln db fbp fbc xff ua) "em" =
      some (JVal.jarr [JVal.jstr (h (normPII e))]) := by
  unfold userDataApp
  rw [if_pos (strTruthy_some he), sha256_truthy h he, Option.map_some']
  exact jlookup_hit _ _ _

theorem app_em_none (h : String → String) {email : Option String}
    (he : strTruthy email = false) (ph fn ln db fbp fbc xff ua : Option String) :
    jlookup (userDataApp h email ph fn ln db fbp fbc xff ua) "em" = none := by
  unfold userDataApp
  rw [if_neg (by rw [he]; exact Bool.false_ne_true), compactObj_cons_none]
  rw [jlookup_skip _ _ (by decide), jlookup_skip _ _ (by decide),
    jlookup_skip _ _ (by decide), jlookup_skip _ _ (by decide),
    jlookup_skip _ _ (by decide), jlookup_skip _ _ (by decide),
    jlookup_skip _ _ (by decide), jlookup_skip _ _ (by decide)]
  rfl

theorem app_ph_some (h : String → String) {p : String} (hp : p ≠ "")
    (email fn ln db fbp fbc xff ua : Option String) :
    jlookup (userDataApp h email (some p) fn ln db fbp fbc xff ua) "ph" =
      some (JVal.jarr [JVal.jstr (h (normPII p))]) := by
  unfold userDataApp
  rw [jlookup_skip _ _ (by decide)]
  rw [if_pos (strTruthy_some hp), sha256_truthy h hp, Option.map_some']
  exact jlookup_hit _ _ _

theorem app_ph_none (h : String → String) {phone : Option String}
    (hp : strTruthy phone = false) (email fn ln db fbp fbc xff ua : Option String) :
    jlookup (userDataApp h email phone fn ln db fbp fbc xff ua) "ph" = none := by
  unfold userDataApp
  rw [jlookup_skip _ _ (by decide)]
  rw [if_neg (by rw [hp]; exact Bool.false_ne_true), compactObj_cons_none]
  rw [jlookup_skip _ _ (by decide), jlookup_skip _ _ (by decide),
    jlookup_skip _ _ (by decide), jlookup_skip _ _ (by decide),
    jlookup_skip _ _ (by decide), jlookup_skip _ _ (by decide),
    jlookup_skip _ _ (by decide)]
  rfl

theorem app_fn_some (h : String → String) {f : String} (hf : f ≠ "")
    (email phone ln db fbp fbc xff ua : Option String) :
    jlookup (userDataApp h email phone (some f) ln db fbp fbc xff ua) "fn" =
      some (JVal.jstr (h (normPII f))) := by
  unfold userDataApp
  rw [jlookup_skip _ _ (by decide), jlookup_skip _ _ (by decide)]
  rw [if_pos (strTruthy_some hf), sha256_truthy h hf, Option.map_some']
  exact jlookup_hit _ _ _

theorem app_fn_none (h : String → String) {fn : Option String}
    (hf : strTruthy fn = false) (email phone ln db fbp fbc xff ua : Option String) :
    jlookup (userDataApp h email phone fn ln db fbp fbc xff ua) "fn" = none := by
  unfold userDataApp
  rw [jlookup_skip _ _ (by decide), jlookup_skip _ _ (by decide)]
  rw [if_neg (by rw [hf]; exact Bool.false_ne_true), compactObj_cons_none]
  rw [jlookup_skip _ _ (by decide), jlookup_skip _ _ (by decide),
    jlookup_skip _ _ (by decide), jlookup_skip _ _ (by decide),
    jlookup_skip _ _ (by decide), jlookup_skip _ _ (by decide)]
  rfl

theorem app_ln_some (h : String → String) {l : String} (hl : l ≠ "")
    (email phone fn db fbp fbc xff ua : Option String) :
    jlookup (userDataApp h email phone fn (some l) db fbp fbc xff ua) "ln" =
      some (JVal.jstr (h (normPII l))) := by
  unfold userDataApp
  rw [jlookup_skip _ _ (by decide), jlookup_skip _ _ (by decide),
    jlookup_skip _ _ (by decide)]
  rw [if_pos (strTruthy_some hl), sha256_truthy h hl, Option.map_some']
  exact jlookup_hit _ _ _

theorem app_ln_none (h : String → String) {ln : Option String}
    (hl : strTruthy ln = false) (email phone fn db fbp fbc xff ua : Option String) :
    jlookup (userDataApp h email phone fn ln db fbp fbc xff ua) "ln" = none := by
  unfold userDataApp
  rw [jlookup_skip _ _ (by decide), jlookup_skip _ _ (by decide),
    jlookup_skip _ _ (by decide)]
  rw [if_neg (by rw [hl]; exact Bool.false_ne_true), compactObj_cons_none]
  rw [jlookup_skip _ _ (by decide), jlookup_skip _ _ (by decide),
    jlookup_skip _ _ (by decide), jlookup_skip _ _ (by decide),
    jlookup_skip _ _ (by decide)]
  rfl

theorem app_db_some (h : String → String) {d : String} (hd : d ≠ "")
    (email phone fn ln fbp fbc xff ua : Option String) :
    jlookup (userDataApp h email phone fn ln (some d) fbp fbc xff ua) "db" =
      some (JVal.jstr (h (normPII d))) := by
  unfold userDataApp
  rw [jlookup_skip _ _ (by decide), jlookup_skip _ _ (by decide),
    jlookup_skip _ _ (by decide), jlookup_skip _ _ (by decide)]
  rw [if_pos (strTruthy_some hd), sha256_truthy h hd, Option.map_some']
  exact jlookup_hit _ _ _

theorem app_db_none (h : String → String) {db : Option String}
    (hd : strTruthy db = false) (email phone fn ln fbp fbc xff ua : Option String) :
    jlookup (userDataApp h email phone fn ln db fbp fbc xff ua) "db" = none := by
  unfold userDataApp
  rw [jlookup_skip _ _ (by decide), jlookup_skip _ _ (by decide),
    jlookup_skip _ _ (by decide), jlookup_skip _ _ (by decide)]
  rw [if_neg (by rw [hd]; exact Bool.false_ne_true), compactObj_cons_none]
  rw [jlookup_skip _ _ (by decide), jlookup_skip _ _ (by decide),
    jlookup_skip _ _ (by decide), jlookup_skip _ _ (by decide)]
  rfl

/-- Claim C3: the date-of-birth normaliser maps "1990-05-04", "05/04/1990"
and "1990/05/4" all to "19900504"; and any input that matches neither
recognised shape and is not parseable as a calendar date yields no value. -/
theorem normalizeDOB_shapes_and_unparseable :
    (∀ dp : String → Option (Int × Nat × Nat),
      normalizeDOB dp (some "1990-05-04") = some "19900504" ∧
      normalizeDOB dp (some "05/04/1990") = some "19900504" ∧
      normalizeDOB dp (some "1990/05/4") = some "19900504") ∧
    (∀ (dp : String → Option (Int × Nat × Nat)) (s : String),
      dateShapeYMD (jsTrim s).data = none → dateShapeMDY (jsTrim s).data = none →
      dp (jsTrim s) = none → normalizeDOB dp (some s) = none) := by
  constructor
  · intro dp
    exact ⟨rfl, rfl, rfl⟩
  · intro dp s h1 h2 h3
    by_cases hs : s = ""
    · subst hs
      rfl
    · simp [normalizeDOB, hs, h1, h2, h3]

/-- Witness for C3: the unparseable case at a concrete input. -/
theorem normalizeDOB_shapes_and_unparseable_witness :
    normalizeDOB (fun _ => none) (some "1990-05-04") = some "19900504" ∧
    normalizeDOB (fun _ => none) (some "not-a-date") = none :=
  ⟨(normalizeDOB_shapes_and_unparseable.1 (fun _ => none)).1,
   normalizeDOB_shapes_and_unparseable.2 (fun _ => none) "not-a-date" rfl rfl rfl⟩

/-- Claim C5 (code-bug evidence): in the `meta-capi-app.js` resolver the
internally generated `rr.event_id` wins over a browser-provided hidden
`event_id` field, because `pickCookieLike(rr, 'event_id')` — the
highest-priority "hidden" source — matches the exact key `event_id` of the
raw submission.  Concretely: with the internal id in `rr` and the hidden
field among the posted multipart fields, the resolver returns the internal
value, contradicting both the claim and the function's own doc comment. -/
theorem resolveEventIdApp_prefers_internal :
    resolveEventIdApp [("event_id", JVal.jstr "evt-internal-222")]
        [("event_id", "evt-browser-111")] none none = some "evt-internal-222" ∧
    "evt-internal-222" ≠ "evt-browser-111" :=
  ⟨rfl, by decide⟩

/-- Claim C9: both "always succeed" ClickFunnels log handler variants
(`part_000`, `part_001`) answer 200 for every HTTP method and any body. -/
theorem cfLog_always_200 (jp : String → Option JVal) (method raw : String) :
    (cfLogPart000 method).status = 200 ∧ (cfLogPart001 jp method raw).status = 200 := by
  constructor
  · unfold cfLogPart000
    split <;> rfl
  · unfold cfLogPart001
    split <;> rfl

/-- Claim C6: when the fbc chain resolved nothing and the effective
parent-page URL (after unwrapping a nested `parentURL` query parameter,
exactly as the source does) carries an `fbclid` parameter, the
reconstructed fbc is `fb.1.<seconds>.<fbclid>`. -/
theorem reconstructFBC_synthesizes (ts : Nat)
    (bodyParentURL rrParentURL rrReferer reqReferer : Option String) (clid : String)
    (hclid : fbclidOf (parentURLChain bodyParentURL rrParentURL rrReferer reqReferer) =
      some clid) (hne : clid ≠ "") :
    reconstructFBCIfNeeded ts none bodyParentURL rrParentURL rrReferer reqReferer =
      some ("fb.1." ++ toString ts ++ "." ++ clid) := by
  simp only [reconstructFBCIfNeeded, strTruthy, Bool.false_eq_true, if_false, hclid]
  rw [if_pos hne]

/-- Witness for C6 at a concrete referrer URL. -/
theorem reconstructFBC_synthesizes_witness :
    reconstructFBCIfNeeded 1700000000 none
        (some "https://host.example/lp?a=1&fbclid=AbC123") none none none =
      some "fb.1.1700000000.AbC123" :=
  reconstructFBC_synthesizes 1700000000
    (some "https://host.example/lp?a=1&fbclid=AbC123") none none none "AbC123" rfl
    (by decide)

/-- Claim C4 (amended): in the handlers that guard configuration — both
`meta-capi.js` variants, `meta-capi-app.js` (all three share the guard
embedded as `forwardCapi`) and `part_003` — a missing or empty pixel id or
access token yields the 500 configuration error and no outbound call.  The
`part_004` variant performs the outbound call regardless (see the
counterexample theorem). -/
theorem forward_guarded_500 (pixelId accessToken : Option String)
    (h : strTruthy pixelId = false ∨ strTruthy accessToken = false) :
    forwardCapi pixelId accessToken =
      ForwardOutcome.configError 500
        "Missing META_PIXEL_ID or META_ACCESS_TOKEN env vars" ∧
    forwardPart003 pixelId accessToken =
      ForwardOutcome.configError 500 "Missing META_PIXEL_ID or META_ACCESS_TOKEN" ∧
    (∀ u, forwardCapi pixelId accessToken ≠ ForwardOutcome.send u) ∧
    (∀ u, forwardPart003 pixelId accessToken ≠ ForwardOutcome.send u) := by
  refine ⟨?_, ?_, ?_, ?_⟩
  · unfold forwardCapi
    rw [if_pos h]
  · unfold forwardPart003
    rw [if_pos h]
  · intro u
    unfold forwardCapi
    rw [if_pos h]
    simp
  · intro u
    unfold forwardPart003
    rw [if_pos h]
    simp

/-- Witness for C4 with the pixel id absent. -/
theorem forward_guarded_500_witness :
    forwardCapi none (some "token") =
      ForwardOutcome.configError 500
        "Missing META_PIXEL_ID or META_ACCESS_TOKEN env vars" :=
  (forward_guarded_500 none (some "token") (Or.inl rfl)).1

/-- Counterexample to C4 as stated: the `part_004` handler has no guard,
so with both env vars absent it still issues the outbound call (with
`undefined` interpolated into the URL) instead of failing first. -/
theorem part004_sends_despite_missing_config :
    forwardPart004 none none =
      ForwardOutcome.send
        "https://graph.facebook.com/v21.0/undefined/events?access_token=undefined" := rfl

/-- Claim C8 (amended): `meta-capi.js` and `part_003` use fixed constants
free of the form-builder identity; `meta-capi-app.js` uses a
submission-supplied override or its fixed constant; `part_004` uses the
referring header when present — but falls back to a jotform.com URL
otherwise (see the counterexample theorem). -/
theorem event_source_url_amended :
    eventSourceUrlCapi = "https://lyftgrowth.com/go/tsgf/survey/" ∧
    containsSub "jotform" eventSourceUrlCapi = false ∧
    eventSourceUrlPart003 = "https://go.lyftcapital.com/application" ∧
    containsSub "jotform" eventSourceUrlPart003 = false ∧
    (∀ referer formId : Option String, strTruthy referer = true →
      eventSourceUrlPart004 referer formId = referer.getD "") ∧
    (∀ rrUrl fieldsUrl : Option String, strTruthy rrUrl = false →
      strTruthy fieldsUrl = false →
      eventSourceUrlApp rrUrl fieldsUrl = "https://lyftgrowth.com/go/app/") := by
  refine ⟨rfl, rfl, rfl, rfl, ?_, ?_⟩
  · intro referer formId h
    unfold eventSourceUrlPart004
    rw [if_pos h]
  · intro rrUrl fieldsUrl h1 h2
    simp [eventSourceUrlApp, jsOr, h1, h2]

/-- Witness for C8: referring header present in `part_004`. -/
theorem event_source_url_amended_witness :
    eventSourceUrlPart004 (some "https://ads.example/landing") none =
      "https://ads.example/landing" :=
  event_source_url_amended.2.2.2.2.1 (some "https://ads.example/landing") none rfl

/-- Counterexample to C8 as stated: with no referring header and a form id
present, `part_004` emits a source URL on the form-builder's own domain. -/
theorem part004_source_url_exposes_formbuilder :
    eventSourceUrlPart004 none (some "251234000000") =
      "https://www.jotform.com/251234000000" ∧
    containsSub "jotform.com" (eventSourceUrlPart004 none (some "251234000000")) = true :=
  ⟨rfl, rfl⟩

/-- Claim C7 (amended): for every body whose declared content type is not
JSON (multipart with or without a boundary, urlencoded, unknown), parsing
never raises — except on a multipart body whose decoded rawRequest object
carries a non-nullish non-string `slug`, where the unguarded
`rr?.slug?.split("/")` call throws (third conjunct exhibits it); a nested
rawRequest blob that fails to decode still degrades to the empty object
without failing the request.  A declared-JSON body that fails `JSON.parse`
also throws (see the counterexample theorem). -/
theorem readBody_degrades_amended :
    (∀ (jp : String → Option JVal) (ct raw : String),
      containsSub "application/json" (jsLower ct) = false →
      (∀ b, findBoundary (jsLower ct).data = some b →
        (slugFormId (rawRequestOf jp (parseFields (splitOnStr raw ("--" ++ b))))).isOk =
          true) →
        (readBodyCapi jp ct raw).isOk = true) ∧
    (∀ (jp : String → Option JVal) (fields : List (String × String)) (s : String),
      slookup fields "rawRequest" = some s → jp s = none →
        rawRequestOf jp fields = JVal.jobj []) ∧
    (readBodyCapi (fun _ => some (JVal.jobj [("slug", JVal.jnum 5)]))
        "multipart/form-data; boundary=xyz"
        "--xyz\r\nContent-Disposition: form-data; name=\"rawRequest\"\r\n\r\nblob\r\n--xyz--" =
      Except.error "TypeError: rr.slug.split is not a function") := by
  refine ⟨?_, ?_, rfl⟩
  · intro jp ct raw h hslug
    simp only [readBodyCapi, h, Bool.false_eq_true, if_false]
    split
    · rfl
    · split
      · split
        · rfl
        · rename_i b hb
          have hs := hslug b hb
          cases hsl : slugFormId (rawRequestOf jp (parseFields (splitOnStr raw ("--" ++ b))))
            with
          | error e =>
            rw [hsl] at hs
            simp [Except.isOk, Except.toBool] at hs
          | ok slugPart => rfl
      · split <;> rfl
  · intro jp fields s h1 h2
    unfold rawRequestOf
    rw [h1]
    show (if s ≠ "" then (jp s).getD (JVal.jobj []) else JVal.jobj []) = JVal.jobj []
    split
    · rw [h2]
      rfl
    · rfl

/-- Witness for C7: a multipart body whose rawRequest part fails to
decode is still parsed, and its nested blob degrades to the empty
object. -/
theorem readBody_degrades_amended_witness :
    (readBodyCapi (fun _ => none) "multipart/form-data; boundary=xyz"
      "--xyz\r\nContent-Disposition: form-data; name=\"rawRequest\"\r\n\r\nnot json\r\n--xyz--").isOk
      = true ∧
    rawRequestOf (fun _ => none) [("rawRequest", "not json")] = JVal.jobj [] := by
  constructor
  · apply readBody_degrades_amended.1
    · rfl
    · intro b hb
      have h0 : findBoundary (jsLower "multipart/form-data; boundary=xyz").data =
          some "xyz" := rfl
      rw [h0] at hb
      have hb' : b = "xyz" := (Option.some.inj hb).symm
      subst hb'
      rfl
  · exact readBody_degrades_amended.2.1 (fun _ => none) [("rawRequest", "not json")]
      "not json" rfl rfl

/-- Counterexample to C7 as stated: a malformed body declared as
`application/json` makes `readBody` throw, and the handler's top-level
catch turns that into a 500 error response rather than empty extraction. -/
theorem readBody_declared_json_malformed_errors :
    readBodyCapi (fun _ => none) "application/json" "not json" =
      Except.error "SyntaxError: JSON.parse" := rfl

/-- Claim C10 (amended): `sha256` yields no digest on `undefined`, `null`
and the empty string, so an empty-string PII field is omitted from
`user_data` rather than hashed; and for every input whose trimmed form is
nonempty, `sha256(x)` equals `sha256` of the trimmed, lowercased `x`.
(For whitespace-only input the two sides differ — see the counterexample
theorem.) -/
theorem sha256_falsy_and_normalized :
    (∀ h : String → String, sha256 h none = none) ∧
    (∀ h : String → String, sha256 h (some "") = none) ∧
    (∀ (h : String → String) (x : String), jsTrim x ≠ "" →
      sha256 h (some x) = sha256 h (some (jsLower (jsTrim x)))) ∧
    (∀ (h : String → String) (email lastName : Option String) (phones : List String)
      (fbp fbc xff ua : Option String),
      jlookup (userDataCapi h email (some "") lastName phones fbp fbc xff ua) "fn" =
        none) := by
  refine ⟨fun h => rfl, fun h => rfl, ?_, ?_⟩
  · intro h x hx
    have hxne : x ≠ "" := fun he => hx (by rw [he]; rfl)
    rw [sha256_truthy h hxne]
    show some (h (normPII x)) = sha256 h (some (normPII x))
    rw [sha256_truthy h (normPII_ne_empty hx)]
    rw [normPII_idem]
  · intro h email lastName phones fbp fbc xff ua
    exact capi_fn_none h (show strTruthy (some "") = false from rfl) email lastName phones
      fbp fbc xff ua

/-- Witness for C10 at a mixed-case padded input. -/
theorem sha256_falsy_and_normalized_witness :
    sha256 (fun s => "digest:" ++ s) (some "  JoHn  ") =
      sha256 (fun s => "digest:" ++ s) (some (jsLower (jsTrim "  JoHn  "))) ∧
    jlookup (userDataCapi (fun s => "digest:" ++ s) none (some "") none [] none none
      none none) "fn" = none :=
  ⟨sha256_falsy_and_normalized.2.2.1 (fun s => "digest:" ++ s) "  JoHn  " (by decide),
   sha256_falsy_and_normalized.2.2.2 (fun s => "digest:" ++ s) none none [] none none
     none none⟩

/-- Counterexample to C10 as stated: for whitespace-only input the helper
hashes the empty string, while on the trimmed, lowercased input it
returns no digest — the two sides of the claimed equation differ. -/
theorem sha256_whitespace_only_differs :
    sha256 (fun s => "digest:" ++ s) (some " ") = some "digest:" ∧
    sha256 (fun s => "digest:" ++ s) (some (jsLower (jsTrim " "))) = none :=
  ⟨rfl, rfl⟩

/-- Claim C1 (amended): every present PII field reaches `user_data` only
as the digest of its trimmed, lowercased value — email, phone(s), first
and last name in both handlers; for date of birth, the digest is of the
8-digit normalised form produced by `normalizeDOB`, not of the raw input
string (see the counterexample theorem for the raw-input reading). -/
theorem userData_pii_digest (h : String → String) :
    (∀ (e : String), e ≠ "" → ∀ (fn ln : Option String) (phones : List String)
      (fbp fbc xff ua : Option String),
      jlookup (userDataCapi h (some e) fn ln phones fbp fbc xff ua) "em" =
        some (JVal.jarr [JVal.jstr (h (normPII e))])) ∧
    (∀ (phones : List String), phones ≠ [] → (∀ p ∈ phones, p ≠ "") →
      ∀ (email fn ln : Option String) (fbp fbc xff ua : Option String),
      jlookup (userDataCapi h email fn ln phones fbp fbc xff ua) "ph" =
        some (JVal.jarr (phones.map (fun p => JVal.jstr (h (normPII p)))))) ∧
    (∀ (f : String), f ≠ "" → ∀ (email ln : Option String) (phones : List String)
      (fbp fbc xff ua : Option String),
      jlookup (userDataCapi h email (some f) ln phones fbp fbc xff ua) "fn" =
        some (JVal.jstr (h (normPII f)))) ∧
    (∀ (l : String), l ≠ "" → ∀ (email fn : Option String) (phones : List String)
      (fbp fbc xff ua : Option String),
      jlookup (userDataCapi h email fn (some l) phones fbp fbc xff ua) "ln" =
        some (JVal.jstr (h (normPII l)))) ∧
    (∀ (e : String), e ≠ "" → ∀ (ph fn ln db fbp fbc xff ua : Option String),
      jlookup (userDataApp h (some e) ph fn ln db fbp fbc xff ua) "em" =
        some (JVal.jarr [JVal.jstr (h (normPII e))])) ∧
    (∀ (p : String), p ≠ "" → ∀ (email fn ln db fbp fbc xff ua : Option String),
      jlookup (userDataApp h email (some p) fn ln db fbp fbc xff ua) "ph" =
        some (JVal.jarr [JVal.jstr (h (normPII p))])) ∧
    (∀ (f : String), f ≠ "" → ∀ (email phone ln db fbp fbc xff ua : Option String),
      jlookup (userDataApp h email phone (some f) ln db fbp fbc xff ua) "fn" =
        some (JVal.jstr (h (normPII f)))) ∧
    (∀ (l : String), l ≠ "" → ∀ (email phone fn db fbp fbc xff ua : Option String),
      jlookup (userDataApp h email phone fn (some l) db fbp fbc xff ua) "ln" =
        some (JVal.jstr (h (normPII l)))) ∧
    (∀ (dp : String → Option (Int × Nat × Nat)) (dob : Option String) (d : String),
      normalizeDOB dp dob = some d → d ≠ "" →
      ∀ (email phone fn ln fbp fbc xff ua : Option String),
      jlookup (userDataApp h email phone fn ln (normalizeDOB dp dob) fbp fbc xff ua)
        "db" = some (JVal.jstr (h (normPII d)))) := by
  refine ⟨?_, ?_, ?_, ?_, ?_, ?_, ?_, ?_, ?_⟩
  · intro e he fn ln phones fbp fbc xff ua
    exact capi_em_some h he fn ln phones fbp fbc xff ua
  · intro phones hne hall email fn ln fbp fbc xff ua
    exact capi_ph_some h hne hall email fn ln fbp fbc xff ua
  · intro f hf email ln phones fbp fbc xff ua
    exact capi_fn_some h hf email ln phones fbp fbc xff ua
  · intro l hl email fn phones fbp fbc xff ua
    exact capi_ln_some h hl email fn phones fbp fbc xff ua
  · intro e he ph fn ln db fbp fbc xff ua
    exact app_em_some h he ph fn ln db fbp fbc xff ua
  · intro p hp email fn ln db fbp fbc xff ua
    exact app_ph_some h hp email fn ln db fbp fbc xff ua
  · intro f hf email phone ln db fbp fbc xff ua
    exact app_fn_some h hf email phone ln db fbp fbc xff ua
  · intro l hl email phone fn db fbp fbc xff ua
    exact app_ln_some h hl email phone fn db fbp fbc xff ua
  · intro dp dob d hd hdne email phone fn ln fbp fbc xff ua
    rw [hd]
    exact app_db_some h hdne email phone fn ln fbp fbc xff ua

/-- Witness for C1 at a concrete email with padding and mixed case. -/
theorem userData_pii_digest_witness :
    jlookup (userDataCapi (fun s => "digest:" ++ s) (some " Ab@C.io ") none none []
      none none none none) "em" = some (JVal.jarr [JVal.jstr "digest:ab@c.io"]) :=
  (userData_pii_digest (fun s => "digest:" ++ s)).1 " Ab@C.io " (by decide) none none []
    none none none none

/-- Counterexample to C1 as stated: for the date-of-birth field the
outbound value is the digest of the normalised form "19900504", not the
digest of the trimmed, lowercased input "05/04/1990" (shown with the
digest instantiated to the identity, under which the two claimed values
are distinct strings). -/
theorem userData_db_digest_of_normalized_not_raw :
    jlookup (userDataApp (fun s => s) none none none none
        (normalizeDOB (fun _ => none) (some "05/04/1990")) none none none none) "db" =
      some (JVal.jstr "19900504") ∧
    normPII "05/04/1990" = "05/04/1990" ∧
    "19900504" ≠ "05/04/1990" :=
  ⟨rfl, rfl, by decide⟩

/-- Claim C2: a PII field that was not extracted (or is empty) produces no
key at all in `user_data` — in particular a submission with no
recognisable PII yields a `user_data` with none of the hashed-PII keys. -/
theorem userData_absent_pii_omitted (h : String → String) :
    (∀ (email fn ln : Option String) (phones : List String)
      (fbp fbc xff ua : Option String), strTruthy email = false →
      jlookup (userDataCapi h email fn ln phones fbp fbc xff ua) "em" = none) ∧
    (∀ (email fn ln : Option String) (fbp fbc xff ua : Option String),
      jlookup (userDataCapi h email fn ln [] fbp fbc xff ua) "ph" = none) ∧
    (∀ (email fn ln : Option String) (phones : List String)
      (fbp fbc xff ua : Option String), strTruthy fn = false →
      jlookup (userDataCapi h email fn ln phones fbp fbc xff ua) "fn" = none) ∧
    (∀ (email fn ln : Option String) (phones : List String)
      (fbp fbc xff ua : Option String), strTruthy ln = false →
      jlookup (userDataCapi h email fn ln phones fbp fbc xff ua) "ln" = none) ∧
    (∀ (email phone fn ln db fbp fbc xff ua : Option String),
      strTruthy email = false →
      jlookup (userDataApp h email phone fn ln db fbp fbc xff ua) "em" = none) ∧
    (∀ (email phone fn ln db fbp fbc xff ua : Option String),
      strTruthy phone = false →
      jlookup (userDataApp h email phone fn ln db fbp fbc xff ua) "ph" = none) ∧
    (∀ (email phone fn ln db fbp fbc xff ua : Option String),
      strTruthy fn = false →
      jlookup (userDataApp h email phone fn ln db fbp fbc xff ua) "fn" = none) ∧
    (∀ (email phone fn ln db fbp fbc xff ua : Option String),
      strTruthy ln = false →
      jlookup (userDataApp h email phone fn ln db fbp fbc xff ua) "ln" = none) ∧
    (∀ (email phone fn ln db fbp fbc xff ua : Option String),
      strTruthy db = false →
      jlookup (userDataApp h email phone fn ln db fbp fbc xff ua) "db" = none) ∧
    (∀ (fbp fbc xff ua : Option String),
      jlookup (userDataCapi h none none none [] fbp fbc xff ua) "em" = none ∧
      jlookup (userDataCapi h none none none [] fbp fbc xff ua) "ph" = none ∧
      jlookup (userDataCapi h none none none [] fbp fbc xff ua) "fn" = none ∧
      jlookup (userDataCapi h none none none [] fbp fbc xff ua) "ln" = none) ∧
    (∀ (fbp fbc xff ua : Option String),
      jlookup (userDataApp h none none none none none fbp fbc xff ua) "em" = none ∧
      jlookup (userDataApp h none none none none none fbp fbc xff ua) "ph" = none ∧
      jlookup (userDataApp h none none none none none fbp fbc xff ua) "fn" = none ∧
      jlookup (userDataApp h none none none none none fbp fbc xff ua) "ln" = none ∧
      jlookup (userDataApp h none none none none none fbp fbc xff ua) "db" = none) := by
  refine ⟨?_, ?_, ?_, ?_, ?_, ?_, ?_, ?_, ?_, ?_, ?_⟩
  · intro email fn ln phones fbp fbc xff ua he
    exact capi_em_none h he fn ln phones fbp fbc xff ua
  · intro email fn ln fbp fbc xff ua
    exact capi_ph_none h email fn ln fbp fbc xff ua
  · intro email fn ln phones fbp fbc xff ua hf
    exact capi_fn_none h hf email ln phones fbp fbc xff ua
  · intro email fn ln phones fbp fbc xff ua hl
    exact capi_ln_none h hl email fn phones fbp fbc xff ua
  · intro email phone fn ln db fbp fbc xff ua he
    exact app_em_none h he phone fn ln db fbp fbc xff ua
  · intro email phone fn ln db fbp fbc xff ua hp
    exact app_ph_none h hp email fn ln db fbp fbc xff ua
  · intro email phone fn ln db fbp fbc xff ua hf
    exact app_fn_none h hf email phone ln db fbp fbc xff ua
  · intro email phone fn ln db fbp fbc xff ua hl
    exact app_ln_none h hl email phone fn db fbp fbc xff ua
  · intro email phone fn ln db fbp fbc xff ua hd
    exact app_db_none h hd email phone fn ln fbp fbc xff ua
  · intro fbp fbc xff ua
    exact ⟨capi_em_none h (show strTruthy (none : Option String) = false from rfl) none none [] fbp fbc xff ua,
      capi_ph_none h none none none fbp fbc xff ua,
      capi_fn_none h (show strTruthy (none : Option String) = false from rfl) none none [] fbp fbc xff ua,
      capi_ln_none h (show strTruthy (none : Option String) = false from rfl) none none [] fbp fbc xff ua⟩
  · intro fbp fbc xff ua
    exact ⟨app_em_none h (show strTruthy (none : Option String) = false from rfl) none none none none fbp fbc xff ua,
      app_ph_none h (show strTruthy (none : Option String) = false from rfl) none none none none fbp fbc xff ua,
      app_fn_none h (show strTruthy (none : Option String) = false from rfl) none none none none fbp fbc xff ua,
      app_ln_none h (show strTruthy (none : Option String) = false from rfl) none none none none fbp fbc xff ua,
      app_db_none h (show strTruthy (none : Option String) = false from rfl) none none none none fbp fbc xff ua⟩

/-- Witness for C2: the no-PII case, concretely. -/
theorem userData_absent_pii_omitted_witness :
    jlookup (userDataApp (fun s => "digest:" ++ s) none none none none none none none
      none none) "db" = none :=
  ((userData_absent_pii_omitted (fun s => "digest:" ++ s)).2.2.2.2.2.2.2.2.2.2
    none none none none).2.2.2.2
